/-
Verification of the numeric core of manthan-3.0's backend
(backend/causal_engine.py): the numeric sanitization utility
(safe_float), the uplift statistics module (compute_uplift_summary)
and the confidence-interval fallback of estimate_causal_effect.

Modelling conventions (shallow embedding):
* IEEE-754 doubles are idealized as exact rationals extended with the
  three non-finite values NaN, +Infinity and -Infinity (the PFloat
  type below).  Rounding and overflow are not modelled; the
  propagation rules for the non-finite values follow IEEE-754 (and
  hence numpy/pandas) exactly.  The literal 1.96 of the source is the
  rational 49/25.
* math.sqrt is modelled by an arbitrary function sqrtF : Q -> Q on the
  finite values (an exact square root leaves the rationals); every
  theorem below is universally quantified over sqrtF, so no property
  of the real square root is assumed.  On non-finite values the IEEE
  behaviour (sqrt inf = inf, sqrt nan = nan) is modelled directly.
* A pandas cell is either a value that pd.to_numeric coerces to a
  float, or a non-coercible value, which errors="coerce" maps to NaN.
* A DataFrame is a column-name list together with a list of rows,
  each row a function from column names to cells.
-/
import Mathlib

namespace Manthan

/-! ## Idealized Python/numpy floats -/

/-- An idealized IEEE double: an exact rational, or NaN, or ±∞. -/
inductive PFloat where
  | fin (q : ℚ)
  | nan
  | inf
  | ninf
deriving DecidableEq, Repr

namespace PFloat

def isNan : PFloat → Bool
  | .nan => true
  | _ => false

def isInf : PFloat → Bool
  | .inf => true
  | .ninf => true
  | _ => false

def isFin : PFloat → Bool
  | .fin _ => true
  | _ => false

/-- IEEE addition on the idealized floats (no overflow modelled). -/
def fadd : PFloat → PFloat → PFloat
  | .nan, _ => .nan
  | _, .nan => .nan
  | .inf, .ninf => .nan
  | .ninf, .inf => .nan
  | .inf, _ => .inf
  | _, .inf => .inf
  | .ninf, _ => .ninf
  | _, .ninf => .ninf
  | .fin a, .fin b => .fin (a + b)

def fneg : PFloat → PFloat
  | .fin a => .fin (-a)
  | .nan => .nan
  | .inf => .ninf
  | .ninf => .inf

/-- IEEE subtraction: x - y = x + (-y). -/
def fsub (x y : PFloat) : PFloat := fadd x (fneg y)

/-- IEEE multiplication (no overflow modelled); ∞ · 0 = NaN. -/
def fmul : PFloat → PFloat → PFloat
  | .nan, _ => .nan
  | _, .nan => .nan
  | .inf, .fin b => if b = 0 then .nan else if 0 < b then .inf else .ninf
  | .fin a, .inf => if a = 0 then .nan else if 0 < a then .inf else .ninf
  | .ninf, .fin b => if b = 0 then .nan else if 0 < b then .ninf else .inf
  | .fin a, .ninf => if a = 0 then .nan else if 0 < a then .ninf else .inf
  | .inf, .inf => .inf
  | .inf, .ninf => .ninf
  | .ninf, .inf => .ninf
  | .ninf, .ninf => .inf
  | .fin a, .fin b => .fin (a * b)

/-- IEEE division (numpy semantics: x/0 is ±∞ or NaN, never an
exception; ∞/∞ = NaN; x/±∞ = 0 for finite x). -/
def fdiv : PFloat → PFloat → PFloat
  | .nan, _ => .nan
  | _, .nan => .nan
  | .inf, .inf => .nan
  | .inf, .ninf => .nan
  | .ninf, .inf => .nan
  | .ninf, .ninf => .nan
  | .inf, .fin b => if b < 0 then .ninf else .inf
  | .ninf, .fin b => if b < 0 then .inf else .ninf
  | .fin _, .inf => .fin 0
  | .fin _, .ninf => .fin 0
  | .fin a, .fin b =>
      if b = 0 then (if a = 0 then .nan else if 0 < a then .inf else .ninf)
      else .fin (a / b)

/-- x >= q for a rational literal q: NaN compares false. -/
def fgeQ : PFloat → ℚ → Bool
  | .fin a, q => decide (q ≤ a)
  | .inf, _ => true
  | _, _ => false

/-- x < q for a rational literal q: NaN compares false. -/
def fltQ : PFloat → ℚ → Bool
  | .fin a, q => decide (a < q)
  | .ninf, _ => true
  | _, _ => false

/-- x > q for a rational literal q: NaN compares false. -/
def fgtQ : PFloat → ℚ → Bool
  | .fin a, q => decide (q < a)
  | .inf, _ => true
  | _, _ => false

end PFloat

open PFloat

/-! ## Python values and the numeric sanitization utility

The model of the values safe_float can receive: numpy scalar
wrappers, numpy arrays (possibly nested, modelled as rose trees whose
leaves are the array's scalar elements), native Python floats and
ints, None, and any other object on which float() raises. -/

inductive PyVal where
  | npInt (n : ℤ)
  | npFloat (x : PFloat)
  | npArr (elems : List PyVal)
  | pyInt (n : ℤ)
  | pyFloat (x : PFloat)
  | pyNone
  | nonNumeric

namespace PyVal

mutual

/-- np.ndarray.size: the total number of scalar leaves. -/
def vsize : PyVal → Nat
  | .npArr l => vsizeList l
  | _ => 1

/-- Total leaf count of a list of values. -/
def vsizeList : List PyVal → Nat
  | [] => 0
  | x :: xs => vsize x + vsizeList xs

end

mutual

/-- The scalar leaves of a value, in order; ndarray.item() on a
size-1 array returns the unique leaf. -/
def leaves : PyVal → List PyVal
  | .npArr l => leavesList l
  | v => [v]

/-- Concatenated leaves of a list of values, in order. -/
def leavesList : List PyVal → List PyVal
  | [] => []
  | x :: xs => leaves x ++ leavesList xs

end

end PyVal

/-- The result type of safe_float: a native float (possibly non-finite
at the type level --- the sanitization proof shows the non-finite
values never appear), None, or a (possibly nested) list. -/
inductive SF where
  | val (x : PFloat)
  | null
  | list (l : List SF)

/-- Python's `val is None` identity test on a safe_float result. -/
def SF.isNull : SF → Bool
  | .null => true
  | _ => false

/-- Python float(val): the converted value, or none when float()
raises (TypeError/ValueError).  float() on an ndarray is unreachable
in safe_float (the array branch returns first), so its result is
immaterial; we pick none. -/
def floatConv : PyVal → Option PFloat
  | .npInt n => some (.fin n)
  | .npFloat x => some x
  | .pyInt n => some (.fin n)
  | .pyFloat x => some x
  | .pyNone => none
  | .nonNumeric => none
  | .npArr _ => none

/-- The scalar tail of safe_float (causal_engine.py lines 23-29):
try float(val); NaN/±Infinity and conversion failures become None. -/
def sfScalar (v : PyVal) : SF :=
  match floatConv v with
  | none => .null
  | some f => if f.isNan || f.isInf then .null else .val f

mutual

/-- safe_float (causal_engine.py lines 12-29).  numpy scalars unwrap
to native values and reach the scalar tail unchanged (rule 1, folded
into floatConv); a size-1 ndarray unwraps via item(); any other
ndarray maps safe_float over its first axis. -/
def safe_float : PyVal → SF
  | .npArr l =>
      if (PyVal.npArr l).vsize = 1 then sfScalar ((PyVal.npArr l).leaves.headD .pyNone)
      else .list (sfMap l)
  | v => sfScalar v

/-- safe_float applied to each element of a list, in order (the list
comprehension of causal_engine.py line 21). -/
def sfMap : List PyVal → List SF
  | [] => []
  | x :: xs => safe_float x :: sfMap xs

end

/-! ## Datasets and the uplift statistics module -/

/-- A pandas cell, seen through pd.to_numeric(errors="coerce"): either
a value coercing to a float (numeric values and numeric strings; the
float may itself be NaN or ±∞), or a non-coercible value, which
coercion maps to NaN. -/
inductive Cell where
  | num (x : PFloat)
  | bad

/-- pd.to_numeric(·, errors="coerce") on one cell. -/
def toNumeric : Cell → PFloat
  | .num x => x
  | .bad => .nan

/-- A DataFrame: its column names and its rows (each row a function
from column name to cell). -/
structure Dataset where
  cols : List String
  rows : List (String → Cell)

/-- Sum of a list of floats (summation order is immaterial in the
idealized model; NaN and ±∞ propagate as in IEEE). -/
def Fsum (l : List PFloat) : PFloat := l.foldr fadd (.fin 0)

/-- pandas Series.mean: sum divided by length. -/
def Fmean (l : List PFloat) : PFloat := fdiv (Fsum l) (.fin l.length)

/-- pandas Series.var(ddof=1): NaN on fewer than two values,
otherwise the sum of squared deviations over (n-1). -/
def Fvar (l : List PFloat) : PFloat :=
  if l.length < 2 then .nan
  else fdiv (Fsum (l.map (fun x => fmul (fsub x (Fmean l)) (fsub x (Fmean l)))))
            (.fin ((l.length : ℚ) - 1))

/-- Python max(v, 0): returns 0 only when 0 > v (so max(NaN, 0) = NaN). -/
def pymax0 (x : PFloat) : PFloat := if x.fltQ 0 then .fin 0 else x

/-- math.sqrt, with the exact square root on finite values abstracted
by sqrtF (the argument is non-negative at the one call site, after
the max(·, 0) guard and the NaN check). -/
def msqrt (sqrtF : ℚ → ℚ) : PFloat → PFloat
  | .fin q => if q < 0 then .nan else .fin (sqrtF q)
  | .inf => .inf
  | _ => .nan

/-- The rows surviving pairwise numeric coercion of the treatment and
outcome columns (causal_engine.py lines 39-44: to_numeric on both
columns, then dropna on the two-column frame). -/
def pairedData (df : Dataset) (t o : String) : List (PFloat × PFloat) :=
  (df.rows.map (fun r => (toNumeric (r t), toNumeric (r o)))).filter
    (fun p => !p.1.isNan && !p.2.isNan)

/-- Outcome values of the treated partition (treatment ≥ 0.5). -/
def treatedOutcomes (df : Dataset) (t o : String) : List PFloat :=
  ((pairedData df t o).filter (fun p => p.1.fgeQ (1/2))).map Prod.snd

/-- Outcome values of the control partition (treatment < 0.5). -/
def controlOutcomes (df : Dataset) (t o : String) : List PFloat :=
  ((pairedData df t o).filter (fun p => p.1.fltQ (1/2))).map Prod.snd

/-- The value under the square root in the standard error:
max(var_treated/n_treated + var_control/n_control, 0). -/
def seRadicand (df : Dataset) (t o : String) : PFloat :=
  pymax0 (fadd (fdiv (Fvar (treatedOutcomes df t o)) (.fin (treatedOutcomes df t o).length))
               (fdiv (Fvar (controlOutcomes df t o)) (.fin (controlOutcomes df t o).length)))

/-- The raw (pre-sanitization) standard error, None unless both
partitions have at least two rows and the radicand is not NaN
(causal_engine.py lines 60-64). -/
def rawSe (sqrtF : ℚ → ℚ) (df : Dataset) (t o : String) : Option PFloat :=
  if 1 < (treatedOutcomes df t o).length ∧ 1 < (controlOutcomes df t o).length then
    if !(seRadicand df t o).isNan then some (msqrt sqrtF (seRadicand df t o)) else none
  else none

/-- The uplift summary record.  treatment_count and control_count are
int(...) of the partition sizes, hence native integers; every other
field has passed through safe_float. -/
structure UpliftSummary where
  treatment_mean : SF
  control_mean : SF
  absolute_uplift : SF
  relative_uplift_pct : SF
  treatment_count : ℤ
  control_count : ℤ
  standard_error : SF
  approximate_confidence_interval : Option (List SF)

/-- safe_float applied to a numpy float scalar (the type pandas mean,
var and their arithmetic produce). -/
def sfF (x : PFloat) : SF := safe_float (.npFloat x)

/-- safe_float applied to an optional numpy float (None stays None:
safe_float(None) is None since float(None) raises). -/
def sfOF : Option PFloat → SF
  | none => safe_float .pyNone
  | some x => safe_float (.npFloat x)

/-- The raw (pre-sanitization) confidence interval: built only when
the raw standard error is not None and strictly positive
(causal_engine.py lines 66-69); z = 1.96 = 49/25. -/
def rawCI (sqrtF : ℚ → ℚ) (df : Dataset) (t o : String) : Option (List PFloat) :=
  match rawSe sqrtF df t o with
  | some s =>
      if s.fgtQ 0 then
        some [fsub (fsub (Fmean (treatedOutcomes df t o)) (Fmean (controlOutcomes df t o)))
                   (fmul (.fin (49/25)) s),
              fadd (fsub (Fmean (treatedOutcomes df t o)) (Fmean (controlOutcomes df t o)))
                   (fmul (.fin (49/25)) s)]
      else none
  | none => none

/-- The summary record built by compute_uplift_summary once all three
guards have passed (causal_engine.py lines 51-87). -/
def buildSummary (sqrtF : ℚ → ℚ) (df : Dataset) (t o : String) : UpliftSummary :=
  let treated := treatedOutcomes df t o
  let control := controlOutcomes df t o
  let treated_mean := Fmean treated
  let control_mean := Fmean control
  let absolute_uplift := fsub treated_mean control_mean
  let se := rawSe sqrtF df t o
  -- the CI list is always a two-element list, so Python's truthiness
  -- test on it (line 86) is equivalent to the None test modelled by
  -- Option.map.
  let approx_ci : Option (List PFloat) := rawCI sqrtF df t o
  -- lines 71-76: the mean is never Python None here, so the guard
  -- `control_mean not in (None, 0)` is the numeric test against 0;
  -- the ZeroDivisionError branch is unreachable (the guard excludes 0
  -- and numpy float division never raises).
  let relative : Option PFloat :=
    if control_mean ≠ .fin 0 then some (fmul (fdiv absolute_uplift control_mean) (.fin 100))
    else none
  { treatment_mean := sfF treated_mean
    control_mean := sfF control_mean
    absolute_uplift := sfF absolute_uplift
    relative_uplift_pct := sfOF relative
    treatment_count := (treated.length : ℤ)
    control_count := (control.length : ℤ)
    standard_error := sfOF se
    approximate_confidence_interval := approx_ci.map (fun l => l.map sfF) }

/-- compute_uplift_summary (causal_engine.py lines 32-89). -/
def compute_uplift_summary (sqrtF : ℚ → ℚ) (df : Dataset) (t o : String) :
    Option UpliftSummary :=
  if ¬ (t ∈ df.cols) ∨ ¬ (o ∈ df.cols) then none
  else if (pairedData df t o).isEmpty then none
  else if (treatedOutcomes df t o).isEmpty ∨ (controlOutcomes df t o).isEmpty then none
  else some (buildSummary sqrtF df t o)

/-! ## The causal-estimation orchestration (delegation boundary)

The structural causal model, identification, estimation and
refutation are delegated to the external dowhy library; following the
spec they are modelled as an opaque input record carrying the
delegated results, and only the repository's own post-processing
(sanitization and the confidence-interval fallback) is embedded. -/

/-- The results the external library hands back to
estimate_causal_effect. -/
structure DelegatedEstimate where
  value : PyVal
  conf_intervals : Option (List PyVal)
  p_value : Option PyVal
  refutation : Option PyVal

/-- The record returned by estimate_causal_effect. -/
structure CausalResult where
  estimate_value : SF
  confidence_intervals : Option (List SF)
  p_value : SF
  refutation_result : SF
  uplift_summary : Option UpliftSummary

/-- Python truthiness of an optional list: None and the empty list
are falsy. -/
def isFalsy : Option (List SF) → Bool
  | none => true
  | some [] => true
  | some (_ :: _) => false

/-- The uplift summary's confidence interval as Python sees it in the
fallback test `uplift_summary and uplift_summary.get(...)`: available
exactly when the summary exists and its interval is a non-None,
non-empty list. -/
def upliftFallback (sqrtF : ℚ → ℚ) (df : Dataset) (t o : String) : Option (List SF) :=
  match compute_uplift_summary sqrtF df t o with
  | some s =>
      match s.approximate_confidence_interval with
      | some ci => if ci.isEmpty then none else some ci
      | none => none
  | none => none

/-- estimate_causal_effect (causal_engine.py lines 91-141), with the
dowhy delegation abstracted into the est argument. -/
def estimate_causal_effect (sqrtF : ℚ → ℚ) (df : Dataset) (t o : String)
    (confounders : List String) (est : DelegatedEstimate) : CausalResult :=
  let _clean := confounders.filter (fun c => c ≠ t ∧ c ≠ o)
  let us := compute_uplift_summary sqrtF df t o
  -- lines 124-126: sanitize the delegated interval when present
  let conf_ints : Option (List SF) := est.conf_intervals.map (fun l => l.map safe_float)
  -- lines 128-129: `if (not conf_ints or any(val is None for val in
  -- conf_ints)) and uplift_summary and uplift_summary.get(...)`
  let fb := upliftFallback sqrtF df t o
  let cond := (isFalsy conf_ints || (conf_ints.getD []).any SF.isNull) && fb.isSome
  let conf_ints := if cond then fb else conf_ints
  { estimate_value := safe_float est.value
    confidence_intervals := conf_ints
    p_value := match est.p_value with
      | some p => safe_float p
      | none => .null
    refutation_result := match est.refutation with
      | some r => safe_float r
      | none => .null
    uplift_summary := us }

/-! ## Helper lemmas: the sanitization utility -/

/-- A sanitized scalar is a finite float or null. -/
def FiniteOrNull (s : SF) : Prop := s = .null ∨ ∃ q : ℚ, s = .val (.fin q)

theorem sfMap_eq_map (l : List PyVal) : sfMap l = l.map safe_float := by
  induction l with
  | nil => rfl
  | cons x xs ih => simp [sfMap, ih]

theorem finOrNull_sfScalar (v : PyVal) : FiniteOrNull (sfScalar v) := by
  cases v with
  | npFloat x => cases x <;> simp [FiniteOrNull, sfScalar, floatConv, PFloat.isNan, PFloat.isInf]
  | pyFloat x => cases x <;> simp [FiniteOrNull, sfScalar, floatConv, PFloat.isNan, PFloat.isInf]
  | npInt n => simp [FiniteOrNull, sfScalar, floatConv, PFloat.isNan, PFloat.isInf]
  | pyInt n => simp [FiniteOrNull, sfScalar, floatConv, PFloat.isNan, PFloat.isInf]
  | npArr l => simp [FiniteOrNull, sfScalar, floatConv]
  | pyNone => simp [FiniteOrNull, sfScalar, floatConv]
  | nonNumeric => simp [FiniteOrNull, sfScalar, floatConv]

theorem sfF_fin (q : ℚ) : sfF (.fin q) = .val (.fin q) := rfl

theorem safe_float_scalar_eq (x : PFloat) : safe_float (.npFloat x) = sfScalar (.npFloat x) := rfl

theorem finOrNull_sfF (x : PFloat) : FiniteOrNull (sfF x) := by
  rw [show sfF x = sfScalar (.npFloat x) from rfl]
  exact finOrNull_sfScalar _

theorem finOrNull_sfOF (x : Option PFloat) : FiniteOrNull (sfOF x) := by
  cases x with
  | none => exact Or.inl rfl
  | some y =>
      rw [show sfOF (some y) = sfScalar (.npFloat y) from rfl]
      exact finOrNull_sfScalar _

theorem sfF_nonFin (x : PFloat) (h : x.isFin = false) : sfF x = .null := by
  cases x <;> simp_all [sfF, safe_float, sfScalar, floatConv, PFloat.isNan, PFloat.isInf,
    PFloat.isFin]

/-! ## Helper lemmas: sums, means and variances over the idealized floats -/

theorem isFin_fadd (a b : PFloat) : (fadd a b).isFin = (a.isFin && b.isFin) := by
  cases a <;> cases b <;> rfl

theorem fadd_eq_inf (a b : PFloat) (h : fadd a b = .inf) : a = .inf ∨ b = .inf := by
  cases a <;> cases b <;> simp_all [fadd]

theorem fadd_eq_ninf (a b : PFloat) (h : fadd a b = .ninf) : a = .ninf ∨ b = .ninf := by
  cases a <;> cases b <;> simp_all [fadd]

theorem isFin_Fsum (l : List PFloat) : (Fsum l).isFin = l.all PFloat.isFin := by
  induction l with
  | nil => rfl
  | cons x xs ih => simp [Fsum, List.foldr] at ih ⊢; rw [isFin_fadd, ih]

theorem Fsum_nan (l : List PFloat) (h : ∃ x ∈ l, x.isNan = true) : Fsum l = .nan := by
  induction l with
  | nil => simp at h
  | cons x xs ih =>
      rcases h with ⟨y, hy, hn⟩
      rcases List.mem_cons.mp hy with h1 | h1
      · subst h1
        cases y <;> simp_all [Fsum, List.foldr, fadd, PFloat.isNan]
      · have := ih ⟨y, h1, hn⟩
        simp only [Fsum, List.foldr] at this ⊢
        rw [this]
        cases x <;> rfl

theorem Fsum_eq_inf (l : List PFloat) (h : Fsum l = .inf) : ∃ x ∈ l, x = .inf := by
  induction l with
  | nil => simp [Fsum, List.foldr] at h
  | cons x xs ih =>
      simp only [Fsum, List.foldr] at h
      rcases fadd_eq_inf _ _ h with h1 | h1
      · exact ⟨x, List.mem_cons_self .., h1⟩
      · rcases ih h1 with ⟨y, hy, h2⟩
        exact ⟨y, List.mem_cons_of_mem _ hy, h2⟩

theorem Fsum_eq_ninf (l : List PFloat) (h : Fsum l = .ninf) : ∃ x ∈ l, x = .ninf := by
  induction l with
  | nil => simp [Fsum, List.foldr] at h
  | cons x xs ih =>
      simp only [Fsum, List.foldr] at h
      rcases fadd_eq_ninf _ _ h with h1 | h1
      · exact ⟨x, List.mem_cons_self .., h1⟩
      · rcases ih h1 with ⟨y, hy, h2⟩
        exact ⟨y, List.mem_cons_of_mem _ hy, h2⟩

theorem isFin_iff (x : PFloat) : x.isFin = true ↔ ∃ q, x = .fin q := by
  cases x <;> simp [PFloat.isFin]

/-- Division by a finite nonzero denominator preserves finiteness
status in every direction. -/
theorem isFin_fdiv_fin (x : PFloat) (n : ℚ) (hn : n ≠ 0) :
    (fdiv x (.fin n)).isFin = x.isFin := by
  cases x <;> simp [fdiv, hn, PFloat.isFin] <;> split_ifs <;> rfl

theorem fdiv_fin_eq_inf (x : PFloat) (n : ℚ) (hpos : 0 < n) (h : fdiv x (.fin n) = .inf) :
    x = .inf := by
  cases x <;> simp_all [fdiv, not_lt.mpr hpos.le]
  split_ifs at h <;> simp_all

theorem fdiv_fin_eq_ninf (x : PFloat) (n : ℚ) (hpos : 0 < n) (h : fdiv x (.fin n) = .ninf) :
    x = .ninf := by
  cases x <;> simp_all [fdiv, not_lt.mpr hpos.le]
  split_ifs at h <;> simp_all

theorem fdiv_fin_eq_nan (x : PFloat) (n : ℚ) (hn : n ≠ 0) (h : fdiv x (.fin n) = .nan) :
    x = .nan := by
  cases x <;> simp_all [fdiv, hn] <;> split_ifs at h <;> simp_all

/-- A mean over a nonempty list of finite values is finite. -/
theorem Fmean_fin (l : List PFloat) (hne : l ≠ []) (hall : l.all PFloat.isFin = true) :
    ∃ q, Fmean l = .fin q := by
  have hs : (Fsum l).isFin = true := by rw [isFin_Fsum]; exact hall
  rcases (isFin_iff _).mp hs with ⟨s, hsum⟩
  have hn : (l.length : ℚ) ≠ 0 := by
    simp [List.length_eq_zero]
    intro h; exact hne h
  refine ⟨s / l.length, ?_⟩
  simp [Fmean, hsum, fdiv, hn]

theorem fadd_nan_right (x : PFloat) : fadd x .nan = .nan := by cases x <;> rfl

theorem fadd_nan_left (x : PFloat) : fadd .nan x = .nan := by cases x <;> rfl

theorem fdiv_nan_left (x : PFloat) : fdiv .nan x = .nan := by cases x <;> rfl

theorem fsub_x_nan (x : PFloat) : fsub x .nan = .nan := by cases x <;> rfl

/-- A variance over values that are not all finite is NaN: a non-finite
value drives the mean non-finite, and then some squared deviation is
NaN (∞ - ∞), which the sum absorbs. -/
theorem Fvar_notAllFin (l : List PFloat) (h : l.all PFloat.isFin = false) : Fvar l = .nan := by
  unfold Fvar
  split_ifs with hlen
  · rfl
  push_neg at hlen
  have hne : l ≠ [] := by
    intro he; rw [he] at hlen; simp at hlen
  have hlpos : (0 : ℚ) < l.length := by
    have : 0 < l.length := by omega
    exact_mod_cast this
  -- some member is not finite
  have hx : ∃ x ∈ l, x.isFin = false := by
    rcases List.all_eq_false.mp h with ⟨x, hxl, hxf⟩
    exact ⟨x, hxl, by simpa using hxf⟩
  -- it suffices that some squared deviation is NaN
  suffices hnan : ∃ y ∈ l.map (fun x => fmul (fsub x (Fmean l)) (fsub x (Fmean l))), y.isNan = true by
    rw [Fsum_nan _ hnan]; rfl
  cases hm : Fmean l with
  | fin q =>
      exfalso
      have hfin : (Fmean l).isFin = true := by rw [hm]; rfl
      rw [Fmean, isFin_fdiv_fin _ _ (ne_of_gt hlpos), isFin_Fsum] at hfin
      rcases hx with ⟨x, hxl, hxf⟩
      rw [List.all_eq_true] at hfin
      rw [hfin x hxl] at hxf
      exact Bool.noConfusion hxf
  | nan =>
      rcases hx with ⟨x, hxl, _⟩
      refine ⟨_, List.mem_map_of_mem _ hxl, ?_⟩
      rw [fsub_x_nan]; rfl
  | inf =>
      have hsum : Fsum l = .inf := fdiv_fin_eq_inf _ _ hlpos hm
      rcases Fsum_eq_inf _ hsum with ⟨x, hxl, hxi⟩
      subst hxi
      exact ⟨_, List.mem_map_of_mem _ hxl, rfl⟩
  | ninf =>
      have hsum : Fsum l = .ninf := fdiv_fin_eq_ninf _ _ hlpos hm
      rcases Fsum_eq_ninf _ hsum with ⟨x, hxl, hxi⟩
      subst hxi
      exact ⟨_, List.mem_map_of_mem _ hxl, rfl⟩

/-- A variance over at least two finite values is finite. -/
theorem Fvar_allFin (l : List PFloat) (h2 : 2 ≤ l.length) (hall : l.all PFloat.isFin = true) :
    ∃ q, Fvar l = .fin q := by
  have hne : l ≠ [] := by
    intro he; rw [he] at h2; simp at h2
  rcases Fmean_fin l hne hall with ⟨m, hm⟩
  have hsq : (l.map (fun x => fmul (fsub x (Fmean l)) (fsub x (Fmean l)))).all PFloat.isFin
      = true := by
    rw [List.all_eq_true]
    intro y hy
    rcases List.mem_map.mp hy with ⟨x, hxl, hxy⟩
    rw [List.all_eq_true] at hall
    rcases (isFin_iff _).mp (hall x hxl) with ⟨a, ha⟩
    rw [← hxy, ha, hm]
    rfl
  have hs : (Fsum (l.map (fun x => fmul (fsub x (Fmean l)) (fsub x (Fmean l))))).isFin
      = true := by rw [isFin_Fsum]; exact hsq
  rcases (isFin_iff _).mp hs with ⟨s, hsum⟩
  have hd : ((l.length : ℚ) - 1) ≠ 0 := by
    have : (2 : ℚ) ≤ l.length := by exact_mod_cast h2
    intro hz
    rw [sub_eq_zero] at hz
    rw [hz] at this
    norm_num at this
  refine ⟨s / ((l.length : ℚ) - 1), ?_⟩
  unfold Fvar
  rw [if_neg (by omega), hsum]
  simp [fdiv, hd]

theorem Fvar_fin_allFin (l : List PFloat) (q : ℚ) (h : Fvar l = .fin q) :
    l.all PFloat.isFin = true := by
  rcases Bool.eq_false_or_eq_true (l.all PFloat.isFin) with ht | hf
  · exact ht
  · rw [Fvar_notAllFin l hf] at h; exact absurd h (by simp)

theorem fdiv_fin_fin (a n : ℚ) (hn : n ≠ 0) : fdiv (.fin a) (.fin n) = .fin (a / n) := by
  simp [fdiv, hn]

/-- Under the two-rows-per-partition guard, the value under the square
root is either NaN or a non-negative finite rational; in the finite
case every outcome value in both partitions is finite. -/
theorem seRadicand_cases (df : Dataset) (t o : String)
    (hT : 2 ≤ (treatedOutcomes df t o).length) (hC : 2 ≤ (controlOutcomes df t o).length) :
    seRadicand df t o = .nan ∨
    ∃ q, seRadicand df t o = .fin q ∧ 0 ≤ q ∧
      (treatedOutcomes df t o).all PFloat.isFin = true ∧
      (controlOutcomes df t o).all PFloat.isFin = true := by
  cases hTa : (treatedOutcomes df t o).all PFloat.isFin with
  | false =>
      left
      rw [seRadicand, Fvar_notAllFin _ hTa, fdiv_nan_left, fadd_nan_left]
      simp [pymax0, PFloat.fltQ]
  | true =>
      cases hCa : (controlOutcomes df t o).all PFloat.isFin with
      | false =>
          left
          rw [seRadicand, Fvar_notAllFin _ hCa, fdiv_nan_left, fadd_nan_right]
          simp [pymax0, PFloat.fltQ]
      | true =>
          right
          rcases Fvar_allFin _ hT hTa with ⟨a, ha⟩
          rcases Fvar_allFin _ hC hCa with ⟨b, hb⟩
          have hTn : ((treatedOutcomes df t o).length : ℚ) ≠ 0 := by
            have : (0:ℚ) < (treatedOutcomes df t o).length := by exact_mod_cast by omega
            exact ne_of_gt this
          have hCn : ((controlOutcomes df t o).length : ℚ) ≠ 0 := by
            have : (0:ℚ) < (controlOutcomes df t o).length := by exact_mod_cast by omega
            exact ne_of_gt this
          rw [seRadicand, ha, hb, fdiv_fin_fin _ _ hTn, fdiv_fin_fin _ _ hCn]
          set s := a / ((treatedOutcomes df t o).length : ℚ)
            + b / ((controlOutcomes df t o).length : ℚ) with hs
          rcases lt_or_le s 0 with hneg | hpos
          · exact ⟨0, by simp [fadd, pymax0, PFloat.fltQ, ← hs, hneg], le_refl 0, rfl, rfl⟩
          · exact ⟨s, by simp [fadd, pymax0, PFloat.fltQ, ← hs, not_lt.mpr hpos], hpos, rfl, rfl⟩

/-! ## Helper lemmas: the guard structure of compute_uplift_summary -/

theorem compute_some (sqrtF : ℚ → ℚ) (df : Dataset) (t o : String) (s : UpliftSummary)
    (h : compute_uplift_summary sqrtF df t o = some s) :
    t ∈ df.cols ∧ o ∈ df.cols ∧ pairedData df t o ≠ [] ∧
    treatedOutcomes df t o ≠ [] ∧ controlOutcomes df t o ≠ [] ∧
    s = buildSummary sqrtF df t o := by
  unfold compute_uplift_summary at h
  split_ifs at h with h1 h2 h3
  push_neg at h1
  obtain ⟨h3a, h3b⟩ := not_or.mp h3
  refine ⟨h1.1, h1.2, ?_, ?_, ?_, ?_⟩
  · simpa using h2
  · simpa using h3a
  · simpa using h3b
  · exact (Option.some_injective _ h).symm

/-- compute_uplift_summary returns absent exactly on the three guard
conditions (and it is a total function: no exception is modelled or
possible). -/
theorem compute_none_iff (sqrtF : ℚ → ℚ) (df : Dataset) (t o : String) :
    compute_uplift_summary sqrtF df t o = none ↔
      (¬ t ∈ df.cols ∨ ¬ o ∈ df.cols ∨ pairedData df t o = [] ∨
       treatedOutcomes df t o = [] ∨ controlOutcomes df t o = []) := by
  unfold compute_uplift_summary
  split_ifs with h1 h2 h3
  · simp only [true_iff]
    tauto
  · simp only [true_iff]
    right; right; left
    simpa using h2
  · simp only [true_iff]
    rcases h3 with h3 | h3
    · right; right; right; left; simpa using h3
    · right; right; right; right; simpa using h3
  · simp only [false_iff]
    push_neg at h1 h3
    intro hc
    rcases hc with hc | hc | hc | hc | hc
    · exact hc h1.1
    · exact hc h1.2
    · rw [hc] at h2; simp at h2
    · rw [hc] at h3; simp at h3
    · have := h3.2; rw [hc] at this; simp at this

/-- The treated and control partitions exactly split the coerced
rows. -/
theorem partition_length (df : Dataset) (t o : String) :
    (treatedOutcomes df t o).length + (controlOutcomes df t o).length
      = (pairedData df t o).length := by
  rw [treatedOutcomes, controlOutcomes, List.length_map, List.length_map]
  have hmem : ∀ x ∈ pairedData df t o, x.1.isNan = false := by
    intro x hx
    have hf := (List.mem_filter.mp hx).2
    have : x.1.isNan = false ∧ x.2.isNan = false := by simpa using hf
    exact this.1
  have hcongr : (pairedData df t o).filter (fun p => p.1.fltQ (1/2))
      = (pairedData df t o).filter (fun p => ! p.1.fgeQ (1/2)) := by
    apply List.filter_congr
    intro x hx
    have hn := hmem x hx
    cases hx1 : x.1 with
    | fin a =>
        simp only [PFloat.fltQ, PFloat.fgeQ]
        rw [← decide_not, decide_eq_decide]
        exact not_le.symm
    | nan => rw [hx1] at hn; simp [PFloat.isNan] at hn
    | inf => simp [PFloat.fltQ, PFloat.fgeQ]
    | ninf => simp [PFloat.fltQ, PFloat.fgeQ]
  rw [hcongr]
  exact (@List.length_eq_length_filter_add _ (pairedData df t o)
    (fun p => p.1.fgeQ (1/2))).symm

/-! ## Helper lemmas: inverting the sanitization and the raw standard error -/

theorem sfF_null_imp (x : PFloat) (h : sfF x = .null) : x.isFin = false := by
  cases x with
  | fin q => rw [sfF_fin] at h; exact absurd h (by simp)
  | nan => rfl
  | inf => rfl
  | ninf => rfl

theorem sfF_eq_val (x y : PFloat) (h : sfF x = .val y) : x = y := by
  cases x with
  | fin q => rw [sfF_fin] at h; exact (SF.val.inj h).symm ▸ rfl
  | nan => exact absurd h (by rw [sfF_nonFin .nan rfl]; simp)
  | inf => exact absurd h (by rw [sfF_nonFin .inf rfl]; simp)
  | ninf => exact absurd h (by rw [sfF_nonFin .ninf rfl]; simp)

theorem sfOF_eq_val (ox : Option PFloat) (y : PFloat) (h : sfOF ox = .val y) :
    ox = some y := by
  cases ox with
  | none => exact absurd h (by rw [show sfOF none = .null from rfl]; simp)
  | some x => rw [sfF_eq_val x y h]

theorem sfOF_null_cases (ox : Option PFloat) (h : sfOF ox = .null) :
    ox = none ∨ ∃ x, ox = some x ∧ x.isFin = false := by
  cases ox with
  | none => exact Or.inl rfl
  | some x =>
      right
      refine ⟨x, rfl, ?_⟩
      cases x with
      | fin q =>
          rw [show sfOF (some (.fin q)) = .val (.fin q) from rfl] at h
          exact absurd h (by simp)
      | nan => rfl
      | inf => rfl
      | ninf => rfl

/-- Inverting a defined raw standard error: both partitions have at
least two rows, the radicand is a non-negative finite rational, the
value is its sqrtF-square-root, and every outcome in both partitions
is finite. -/
theorem rawSe_some (sqrtF : ℚ → ℚ) (df : Dataset) (t o : String) (x : PFloat)
    (h : rawSe sqrtF df t o = some x) :
    2 ≤ (treatedOutcomes df t o).length ∧ 2 ≤ (controlOutcomes df t o).length ∧
    ∃ q, seRadicand df t o = .fin q ∧ 0 ≤ q ∧ x = .fin (sqrtF q) ∧
      (treatedOutcomes df t o).all PFloat.isFin = true ∧
      (controlOutcomes df t o).all PFloat.isFin = true := by
  unfold rawSe at h
  split_ifs at h with h1 h2
  obtain ⟨h2T, h2C⟩ := h1
  have hx := Option.some_injective _ h
  rcases seRadicand_cases df t o (by omega) (by omega) with hnan | ⟨q, hq, hq0, hTall, hCall⟩
  · rw [hnan] at h2
    simp [PFloat.isNan] at h2
  · refine ⟨by omega, by omega, q, hq, hq0, ?_, hTall, hCall⟩
    rw [← hx, hq]
    simp [msqrt, not_lt.mpr hq0]

/-! ## The claims -/

/-- C3: safe_float returns, for a finite numeric-library scalar, the
equal native float; for NaN and ±Infinity, null; for a failed float()
conversion, null; for a one-element numeric array, the result of the
scalar rules on the unwrapped element; for a numeric array with more
than one element, the ordered list of element-wise results (fully
recursive through nested arrays, since the element-wise branch calls
safe_float itself). -/
theorem claim_C3_safe_float_rules :
    (∀ q : ℚ, safe_float (.npFloat (.fin q)) = .val (.fin q)) ∧
    (∀ n : ℤ, safe_float (.npInt n) = .val (.fin (n : ℚ))) ∧
    (safe_float (.npFloat .nan) = .null ∧ safe_float (.npFloat .inf) = .null ∧
      safe_float (.npFloat .ninf) = .null) ∧
    (∀ v : PyVal, (∀ l, v ≠ .npArr l) → floatConv v = none → safe_float v = .null) ∧
    (∀ v : PyVal, v.vsize = 1 → safe_float (.npArr [v]) = safe_float v) ∧
    (∀ l : List PyVal, 1 < (PyVal.npArr l).vsize →
      safe_float (.npArr l) = .list (l.map safe_float)) := by
  refine ⟨fun q => rfl, fun n => rfl, ⟨rfl, rfl, rfl⟩, ?_, ?_, ?_⟩
  · intro v hv hc
    cases v with
    | npArr l => exact absurd rfl (hv l)
    | npInt n => simp [floatConv] at hc
    | npFloat x => simp [floatConv] at hc
    | pyInt n => simp [floatConv] at hc
    | pyFloat x => simp [floatConv] at hc
    | pyNone => rfl
    | nonNumeric => rfl
  · intro v hv
    have harr : PyVal.vsize (.npArr [v]) = 1 := by
      simp [PyVal.vsize, PyVal.vsizeList, hv]
    rw [safe_float, if_pos harr]
    have hl : PyVal.leaves (.npArr [v]) = PyVal.leaves v := by
      simp [PyVal.leaves, PyVal.leavesList]
    rw [hl]
    cases v with
    | npArr l' => rw [safe_float, if_pos hv]
    | npInt n => rfl
    | npFloat x => rfl
    | pyInt n => rfl
    | pyFloat x => rfl
    | pyNone => rfl
    | nonNumeric => rfl
  · intro l h
    have hne : PyVal.vsize (.npArr l) ≠ 1 := by omega
    rw [safe_float, if_neg hne, sfMap_eq_map]

/-- C10: safe_float on the empty numeric array returns the empty
list --- not null and not a scalar (the element-wise branch handles
every array whose total size is not one, and mapping over no elements
yields the empty list). -/
theorem claim_C10_empty_array :
    safe_float (.npArr []) = .list [] ∧ safe_float (.npArr []) ≠ .null ∧
    ∀ x, safe_float (.npArr []) ≠ .val x := by
  have h : safe_float (.npArr []) = .list [] := rfl
  refine ⟨h, ?_, ?_⟩
  · rw [h]; intro hc; exact SF.noConfusion hc
  · intro x; rw [h]; intro hc; exact SF.noConfusion hc

/-- C1: every numeric field of a returned summary is a finite float or
null (never NaN or Infinity, which the SF.val payload would expose as
a non-fin PFloat), the confidence-interval entries included; the two
counts are native integers (ℤ in the embedding) equal to the
partition sizes. -/
theorem claim_C1_summary_sanitized (sqrtF : ℚ → ℚ) (df : Dataset) (t o : String)
    (s : UpliftSummary) (h : compute_uplift_summary sqrtF df t o = some s) :
    FiniteOrNull s.treatment_mean ∧ FiniteOrNull s.control_mean ∧
    FiniteOrNull s.absolute_uplift ∧ FiniteOrNull s.relative_uplift_pct ∧
    FiniteOrNull s.standard_error ∧
    (∀ l, s.approximate_confidence_interval = some l → ∀ x ∈ l, FiniteOrNull x) ∧
    s.treatment_count = ((treatedOutcomes df t o).length : ℤ) ∧
    s.control_count = ((controlOutcomes df t o).length : ℤ) := by
  obtain ⟨-, -, -, -, -, hs⟩ := compute_some sqrtF df t o s h
  subst hs
  refine ⟨finOrNull_sfF _, finOrNull_sfF _, finOrNull_sfF _, finOrNull_sfOF _,
    finOrNull_sfOF _, ?_, rfl, rfl⟩
  intro l hl x hx
  obtain ⟨oci, hoci⟩ : ∃ oci : Option (List PFloat),
      (buildSummary sqrtF df t o).approximate_confidence_interval
        = oci.map (fun l0 => l0.map sfF) := ⟨_, rfl⟩
  rw [hoci] at hl
  obtain ⟨l0, -, hmap⟩ := Option.map_eq_some'.mp hl
  subst hmap
  obtain ⟨y, -, hy⟩ := List.mem_map.mp hx
  rw [← hy]
  exact finOrNull_sfF y

/-- C2: the result is absent (and no exception is possible: the
embedding is a total function) exactly when a named column is
missing, no rows survive pairwise coercion, or a partition is empty;
in every other case a summary record is returned. -/
theorem claim_C2_absent_iff (sqrtF : ℚ → ℚ) (df : Dataset) (t o : String) :
    (compute_uplift_summary sqrtF df t o = none ↔
      (t ∉ df.cols ∨ o ∉ df.cols ∨ pairedData df t o = [] ∨
       treatedOutcomes df t o = [] ∨ controlOutcomes df t o = [])) ∧
    ((∃ s, compute_uplift_summary sqrtF df t o = some s) ↔
      ¬ (t ∉ df.cols ∨ o ∉ df.cols ∨ pairedData df t o = [] ∨
         treatedOutcomes df t o = [] ∨ controlOutcomes df t o = [])) := by
  refine ⟨compute_none_iff sqrtF df t o, ?_⟩
  rw [← compute_none_iff sqrtF df t o]
  cases hc : compute_uplift_summary sqrtF df t o with
  | none => simp
  | some s => simp

/-- C9 (implicit): a returned summary has at least one row in each
partition, and the two counts add up to the number of rows whose
treatment and outcome cells both coerce to (non-NaN) numbers ---
pairedData drops a row exactly when one of those two coercions yields
NaN, regardless of any other column. -/
theorem claim_C9_count_partition (sqrtF : ℚ → ℚ) (df : Dataset) (t o : String)
    (s : UpliftSummary) (h : compute_uplift_summary sqrtF df t o = some s) :
    1 ≤ s.treatment_count ∧ 1 ≤ s.control_count ∧
    s.treatment_count + s.control_count = ((pairedData df t o).length : ℤ) := by
  obtain ⟨-, -, -, hT, hC, hs⟩ := compute_some sqrtF df t o s h
  subst hs
  have h1 : 1 ≤ (treatedOutcomes df t o).length := List.length_pos.mpr hT
  have h2 : 1 ≤ (controlOutcomes df t o).length := List.length_pos.mpr hC
  have h3 := partition_length df t o
  refine ⟨?_, ?_, ?_⟩
  · show (1 : ℤ) ≤ ((treatedOutcomes df t o).length : ℤ)
    exact_mod_cast h1
  · show (1 : ℤ) ≤ ((controlOutcomes df t o).length : ℤ)
    exact_mod_cast h2
  · show ((treatedOutcomes df t o).length : ℤ) + ((controlOutcomes df t o).length : ℤ)
      = ((pairedData df t o).length : ℤ)
    exact_mod_cast h3

/-- C4: in a returned summary, when both partitions have at least two
rows and the radicand max(var_t/n_t + var_c/n_c, 0) is not NaN (with
Fvar the ddof = 1 sample variance per partition), standard_error is
the square root of that radicand; it is null when a partition has
fewer than two rows or the radicand is NaN. -/
theorem claim_C4_standard_error (sqrtF : ℚ → ℚ) (df : Dataset) (t o : String)
    (s : UpliftSummary) (h : compute_uplift_summary sqrtF df t o = some s) :
    ((2 ≤ (treatedOutcomes df t o).length ∧ 2 ≤ (controlOutcomes df t o).length ∧
        (seRadicand df t o).isNan = false) →
      ∃ q, seRadicand df t o = .fin q ∧ 0 ≤ q ∧
        s.standard_error = .val (.fin (sqrtF q))) ∧
    (((treatedOutcomes df t o).length < 2 ∨ (controlOutcomes df t o).length < 2 ∨
        (seRadicand df t o).isNan = true) →
      s.standard_error = .null) := by
  obtain ⟨-, -, -, -, -, hs⟩ := compute_some sqrtF df t o s h
  subst hs
  have hse : (buildSummary sqrtF df t o).standard_error = sfOF (rawSe sqrtF df t o) := rfl
  constructor
  · rintro ⟨h2T, h2C, hnn⟩
    rcases seRadicand_cases df t o h2T h2C with hnan | ⟨q, hq, hq0, -, -⟩
    · rw [hnan] at hnn
      exact absurd hnn (by simp [PFloat.isNan])
    · refine ⟨q, hq, hq0, ?_⟩
      have hresolved : rawSe sqrtF df t o = some (.fin (sqrtF q)) := by
        unfold rawSe
        rw [if_pos ⟨by omega, by omega⟩, hq]
        rw [if_pos (by simp [PFloat.isNan])]
        simp [msqrt, not_lt.mpr hq0]
      rw [hse, hresolved]
      rfl
  · intro hneg
    by_cases hl : 1 < (treatedOutcomes df t o).length ∧ 1 < (controlOutcomes df t o).length
    · have hnn : (seRadicand df t o).isNan = true := by
        rcases hneg with hx | hx | hx
        · omega
        · omega
        · exact hx
      have hnone : rawSe sqrtF df t o = none := by
        unfold rawSe
        rw [if_pos hl, if_neg (by simp [hnn])]
      rw [hse, hnone]
      rfl
    · have hnone : rawSe sqrtF df t o = none := by
        unfold rawSe
        rw [if_neg hl]
      rw [hse, hnone]
      rfl

/-- C5: in a returned summary whose standard_error is a defined,
strictly positive value se, the confidence interval is exactly
[uplift - 1.96 se, uplift + 1.96 se] around a finite absolute uplift,
and it brackets the uplift; when standard_error is null or not
strictly positive, the interval is null. -/
theorem claim_C5_confidence_interval (sqrtF : ℚ → ℚ) (df : Dataset) (t o : String)
    (s : UpliftSummary) (h : compute_uplift_summary sqrtF df t o = some s) :
    (∀ se : ℚ, s.standard_error = .val (.fin se) → 0 < se →
      ∃ u : ℚ, s.absolute_uplift = .val (.fin u) ∧
        s.approximate_confidence_interval
          = some [.val (.fin (u - 49/25 * se)), .val (.fin (u + 49/25 * se))] ∧
        u - 49/25 * se ≤ u ∧ u ≤ u + 49/25 * se) ∧
    ((s.standard_error = .null ∨ ∃ se : ℚ, s.standard_error = .val (.fin se) ∧ se ≤ 0) →
      s.approximate_confidence_interval = none) := by
  obtain ⟨-, -, -, hTne, hCne, hs⟩ := compute_some sqrtF df t o s h
  subst hs
  have hse : (buildSummary sqrtF df t o).standard_error = sfOF (rawSe sqrtF df t o) := rfl
  have hci : (buildSummary sqrtF df t o).approximate_confidence_interval
      = (rawCI sqrtF df t o).map (fun l => l.map sfF) := rfl
  constructor
  · intro se hval hpos
    rw [hse] at hval
    have hraw : rawSe sqrtF df t o = some (.fin se) := sfOF_eq_val _ _ hval
    obtain ⟨h2T, h2C, q, hq, hq0, -, hTall, hCall⟩ := rawSe_some sqrtF df t o _ hraw
    obtain ⟨tm, htm⟩ := Fmean_fin _ hTne hTall
    obtain ⟨cm, hcm⟩ := Fmean_fin _ hCne hCall
    have hU : fsub (Fmean (treatedOutcomes df t o)) (Fmean (controlOutcomes df t o))
        = .fin (tm - cm) := by
      rw [htm, hcm]
      simp [fsub, fadd, fneg, sub_eq_add_neg]
    refine ⟨tm - cm, ?_, ?_, by linarith, by linarith⟩
    · have hup : (buildSummary sqrtF df t o).absolute_uplift
          = sfF (fsub (Fmean (treatedOutcomes df t o)) (Fmean (controlOutcomes df t o))) := rfl
      rw [hup, hU, sfF_fin]
    · rw [hci, rawCI, hraw]
      have hgt : PFloat.fgtQ (.fin se) 0 = true := by simp [PFloat.fgtQ, hpos]
      simp only [hgt, if_true, hU, Option.map_some', List.map_cons, List.map_nil]
      simp [fmul, fsub, fadd, fneg, sfF_fin, sub_eq_add_neg]
  · intro hnull
    rcases hnull with hnull | ⟨se, hval, hle⟩
    · rw [hse] at hnull
      rcases sfOF_null_cases _ hnull with hnone | ⟨x, hsome, hnf⟩
      · rw [hci, rawCI, hnone]
        rfl
      · obtain ⟨-, -, q, -, -, hxq, -, -⟩ := rawSe_some sqrtF df t o _ hsome
        rw [hxq] at hnf
        exact absurd hnf (by simp [PFloat.isFin])
    · rw [hse] at hval
      have hraw : rawSe sqrtF df t o = some (.fin se) := sfOF_eq_val _ _ hval
      rw [hci, rawCI, hraw]
      have hngt : PFloat.fgtQ (.fin se) 0 = false := by
        simp [PFloat.fgtQ, not_lt.mpr hle]
      simp [hngt]

/-- C6: in a returned summary, when the control mean is a non-zero
finite value c and the absolute uplift a finite value u (the claim's
formula reads both fields, so it presupposes they are numbers),
relative_uplift_pct is exactly (u / c) * 100; when the control mean is
null or zero, relative_uplift_pct is null. -/
theorem claim_C6_relative_uplift (sqrtF : ℚ → ℚ) (df : Dataset) (t o : String)
    (s : UpliftSummary) (h : compute_uplift_summary sqrtF df t o = some s) :
    (∀ c u : ℚ, s.control_mean = .val (.fin c) → c ≠ 0 →
      s.absolute_uplift = .val (.fin u) →
      s.relative_uplift_pct = .val (.fin (u / c * 100))) ∧
    ((s.control_mean = .null ∨ s.control_mean = .val (.fin 0)) →
      s.relative_uplift_pct = .null) := by
  obtain ⟨-, -, -, -, -, hs⟩ := compute_some sqrtF df t o s h
  subst hs
  have hcm : (buildSummary sqrtF df t o).control_mean
      = sfF (Fmean (controlOutcomes df t o)) := rfl
  have hup : (buildSummary sqrtF df t o).absolute_uplift
      = sfF (fsub (Fmean (treatedOutcomes df t o)) (Fmean (controlOutcomes df t o))) := rfl
  have hrel : (buildSummary sqrtF df t o).relative_uplift_pct
      = sfOF (if Fmean (controlOutcomes df t o) ≠ .fin 0 then
          some (fmul (fdiv (fsub (Fmean (treatedOutcomes df t o))
                             (Fmean (controlOutcomes df t o)))
                       (Fmean (controlOutcomes df t o))) (.fin 100))
        else none) := rfl
  constructor
  · intro c u hc hc0 hu
    have hcmv : Fmean (controlOutcomes df t o) = .fin c :=
      sfF_eq_val _ _ (by rw [← hcm]; exact hc)
    have huv : fsub (Fmean (treatedOutcomes df t o)) (Fmean (controlOutcomes df t o))
        = .fin u := sfF_eq_val _ _ (by rw [← hup]; exact hu)
    rw [hrel, huv, hcmv, if_pos (by simp [hc0]), fdiv_fin_fin _ _ hc0]
    rw [show fmul (.fin (u / c)) (.fin 100) = .fin (u / c * 100) from rfl]
    rfl
  · intro hcase
    rcases hcase with hnullc | hzero
    · have hnf : (Fmean (controlOutcomes df t o)).isFin = false :=
        sfF_null_imp _ (by rw [← hcm]; exact hnullc)
      rw [hrel]
      cases hm : Fmean (controlOutcomes df t o) with
      | fin q => rw [hm] at hnf; exact absurd hnf (by simp [PFloat.isFin])
      | nan =>
          rw [if_pos (by simp)]
          cases Fmean (treatedOutcomes df t o) <;> rfl
      | inf =>
          rw [if_pos (by simp)]
          cases Fmean (treatedOutcomes df t o) <;> rfl
      | ninf =>
          rw [if_pos (by simp)]
          cases Fmean (treatedOutcomes df t o) <;> rfl
    · have hcmv : Fmean (controlOutcomes df t o) = .fin 0 :=
        sfF_eq_val _ _ (by rw [← hcm]; exact hzero)
      rw [hrel, hcmv, if_neg (by simp)]
      rfl

/-! ## The concrete scenario dataset -/

/-- The four-row dataset of the spec's concrete scenario:
(treatment, outcome) = (1,10), (1,20), (0,5), (0,7). -/
def df7 : Dataset :=
  { cols := ["treatment", "outcome"]
    rows := [
      fun c => if c = "treatment" then .num (.fin 1) else .num (.fin 10),
      fun c => if c = "treatment" then .num (.fin 1) else .num (.fin 20),
      fun c => if c = "treatment" then .num (.fin 0) else .num (.fin 5),
      fun c => if c = "treatment" then .num (.fin 0) else .num (.fin 7)] }

theorem df7_paired : pairedData df7 "treatment" "outcome"
    = [(.fin 1, .fin 10), (.fin 1, .fin 20), (.fin 0, .fin 5), (.fin 0, .fin 7)] := rfl

theorem df7_treated : treatedOutcomes df7 "treatment" "outcome" = [.fin 10, .fin 20] := by
  simp only [treatedOutcomes, pairedData, df7, toNumeric, List.map, List.filter]
  norm_num [PFloat.fgeQ, PFloat.isNan]
  decide

theorem df7_control : controlOutcomes df7 "treatment" "outcome" = [.fin 5, .fin 7] := by
  simp only [controlOutcomes, pairedData, df7, toNumeric, List.map, List.filter]
  norm_num [PFloat.fltQ, PFloat.isNan]
  decide

theorem Fmean_1020 : Fmean [PFloat.fin 10, PFloat.fin 20] = .fin 15 := by
  norm_num [Fmean, Fsum, fadd, fdiv, List.foldr]

theorem Fmean_57 : Fmean [PFloat.fin 5, PFloat.fin 7] = .fin 6 := by
  norm_num [Fmean, Fsum, fadd, fdiv, List.foldr]

theorem Fvar_1020 : Fvar [PFloat.fin 10, PFloat.fin 20] = .fin 50 := by
  norm_num [Fvar, Fmean, Fsum, fadd, fdiv, fsub, fneg, fmul, List.foldr]

theorem Fvar_57 : Fvar [PFloat.fin 5, PFloat.fin 7] = .fin 2 := by
  norm_num [Fvar, Fmean, Fsum, fadd, fdiv, fsub, fneg, fmul, List.foldr]

theorem df7_radicand : seRadicand df7 "treatment" "outcome" = .fin 26 := by
  rw [seRadicand, df7_treated, df7_control, Fvar_1020, Fvar_57]
  norm_num [fadd, fdiv, pymax0, PFloat.fltQ]

theorem df7_rawSe (sqrtF : ℚ → ℚ) :
    rawSe sqrtF df7 "treatment" "outcome" = some (.fin (sqrtF 26)) := by
  rw [rawSe, df7_radicand]
  rw [if_pos (by rw [df7_treated, df7_control]; exact ⟨by decide, by decide⟩)]
  rw [if_pos (by simp [PFloat.isNan])]
  norm_num [msqrt]

theorem df7_uplift : fsub (Fmean (treatedOutcomes df7 "treatment" "outcome"))
    (Fmean (controlOutcomes df7 "treatment" "outcome")) = .fin 9 := by
  rw [df7_treated, df7_control, Fmean_1020, Fmean_57]
  norm_num [fsub, fadd, fneg]

theorem df7_compute (sqrtF : ℚ → ℚ) :
    compute_uplift_summary sqrtF df7 "treatment" "outcome"
      = some (buildSummary sqrtF df7 "treatment" "outcome") := by
  unfold compute_uplift_summary
  rw [if_neg (by simp [df7]), if_neg (by rw [df7_paired]; simp),
    if_neg (by rw [df7_treated, df7_control]; simp)]

/-- C7: on the concrete four-row dataset the summary has
treatment_mean 15, control_mean 6, absolute_uplift 9,
relative_uplift_pct 150, and counts 2 and 2 (for any square-root
realization, since none of these fields involves the square root). -/
theorem claim_C7_concrete_scenario (sqrtF : ℚ → ℚ) :
    ∃ s, compute_uplift_summary sqrtF df7 "treatment" "outcome" = some s ∧
      s.treatment_mean = .val (.fin 15) ∧ s.control_mean = .val (.fin 6) ∧
      s.absolute_uplift = .val (.fin 9) ∧ s.relative_uplift_pct = .val (.fin 150) ∧
      s.treatment_count = 2 ∧ s.control_count = 2 := by
  refine ⟨buildSummary sqrtF df7 "treatment" "outcome", df7_compute sqrtF, ?_, ?_, ?_, ?_, ?_, ?_⟩
  · rw [show (buildSummary sqrtF df7 "treatment" "outcome").treatment_mean
        = sfF (Fmean (treatedOutcomes df7 "treatment" "outcome")) from rfl,
      df7_treated, Fmean_1020, sfF_fin]
  · rw [show (buildSummary sqrtF df7 "treatment" "outcome").control_mean
        = sfF (Fmean (controlOutcomes df7 "treatment" "outcome")) from rfl,
      df7_control, Fmean_57, sfF_fin]
  · rw [show (buildSummary sqrtF df7 "treatment" "outcome").absolute_uplift
        = sfF (fsub (Fmean (treatedOutcomes df7 "treatment" "outcome"))
            (Fmean (controlOutcomes df7 "treatment" "outcome"))) from rfl,
      df7_uplift, sfF_fin]
  · rw [show (buildSummary sqrtF df7 "treatment" "outcome").relative_uplift_pct
        = sfOF (if Fmean (controlOutcomes df7 "treatment" "outcome") ≠ .fin 0 then
            some (fmul (fdiv (fsub (Fmean (treatedOutcomes df7 "treatment" "outcome"))
                               (Fmean (controlOutcomes df7 "treatment" "outcome")))
                         (Fmean (controlOutcomes df7 "treatment" "outcome"))) (.fin 100))
          else none) from rfl,
      df7_uplift, df7_control, Fmean_57, if_pos (by simp)]
    rw [fdiv_fin_fin 9 6 (by norm_num)]
    rw [show fmul (.fin ((9 : ℚ) / 6)) (.fin 100) = .fin ((9 : ℚ) / 6 * 100) from rfl]
    rw [show sfOF (some (.fin ((9 : ℚ) / 6 * 100))) = .val (.fin ((9 : ℚ) / 6 * 100)) from rfl]
    norm_num
  · rw [show (buildSummary sqrtF df7 "treatment" "outcome").treatment_count
        = ((treatedOutcomes df7 "treatment" "outcome").length : ℤ) from rfl, df7_treated]
    rfl
  · rw [show (buildSummary sqrtF df7 "treatment" "outcome").control_count
        = ((controlOutcomes df7 "treatment" "outcome").length : ℤ) from rfl, df7_control]
    rfl

/-! ## The confidence-interval fallback of estimate_causal_effect -/

theorem isFalsy_true_iff (x : Option (List SF)) :
    isFalsy x = true ↔ x = none ∨ x = some [] := by
  cases x with
  | none => simp [isFalsy]
  | some l => cases l <;> simp [isFalsy]

/-- The confidence_intervals field of estimate_causal_effect, as the
code computes it. -/
theorem estimate_ci_eq (sqrtF : ℚ → ℚ) (df : Dataset) (t o : String) (cs : List String)
    (est : DelegatedEstimate) :
    (estimate_causal_effect sqrtF df t o cs est).confidence_intervals
      = if ((isFalsy (est.conf_intervals.map (fun l => l.map safe_float))
            || ((est.conf_intervals.map (fun l => l.map safe_float)).getD []).any SF.isNull)
           && (upliftFallback sqrtF df t o).isSome) = true
        then upliftFallback sqrtF df t o
        else est.conf_intervals.map (fun l => l.map safe_float) := rfl

/-- The square root realized as the identity (any positive realization
at 26 works for the concrete runs below). -/
def idSqrt : ℚ → ℚ := fun q => q

theorem df7_ci (sqrtF : ℚ → ℚ) (hpos : 0 < sqrtF 26) :
    (buildSummary sqrtF df7 "treatment" "outcome").approximate_confidence_interval
      = some [.val (.fin (9 - 49/25 * sqrtF 26)), .val (.fin (9 + 49/25 * sqrtF 26))] := by
  rw [show (buildSummary sqrtF df7 "treatment" "outcome").approximate_confidence_interval
      = (rawCI sqrtF df7 "treatment" "outcome").map (fun l => l.map sfF) from rfl]
  rw [rawCI, df7_rawSe]
  have hgt : PFloat.fgtQ (.fin (sqrtF 26)) 0 = true := by simp [PFloat.fgtQ, hpos]
  simp only [hgt, if_true, df7_uplift, Option.map_some', List.map_cons, List.map_nil]
  rw [show fmul (.fin (49/25)) (.fin (sqrtF 26)) = .fin (49/25 * sqrtF 26) from rfl]
  rw [show fsub (.fin 9) (.fin (49/25 * sqrtF 26)) = .fin (9 + -(49/25 * sqrtF 26)) from rfl]
  rw [show fadd (.fin 9) (.fin (49/25 * sqrtF 26)) = .fin (9 + 49/25 * sqrtF 26) from rfl]
  rw [sub_eq_add_neg]
  rfl

theorem df7_fallback : upliftFallback idSqrt df7 "treatment" "outcome"
    = some [.val (.fin (-1049/25)), .val (.fin (1499/25))] := by
  have hci := df7_ci idSqrt (by norm_num [idSqrt])
  have h1 : (9 : ℚ) - 49/25 * idSqrt 26 = -1049/25 := by norm_num [idSqrt]
  have h2 : (9 : ℚ) + 49/25 * idSqrt 26 = 1499/25 := by norm_num [idSqrt]
  rw [h1, h2] at hci
  simp only [upliftFallback, df7_compute idSqrt, hci]
  rfl

/-- The delegated estimate whose confidence interval is an empty
list: present, sanitizable, containing no null bound. -/
def estEmptyCI : DelegatedEstimate :=
  { value := .pyFloat (.fin 2), conf_intervals := some [], p_value := none, refutation := none }

/-- C8 as stated is false on the code: with a present, empty, null-free
delegated confidence interval (so the claim's fallback condition does
not hold) and a defined uplift interval, the code still substitutes
the uplift interval instead of returning the sanitized delegated
interval unchanged, because Python's `not conf_ints` is also true for
the empty list. -/
theorem claim_C8_counterexample :
    estEmptyCI.conf_intervals.map (fun l => l.map safe_float) = some [] ∧
    ((estEmptyCI.conf_intervals.map (fun l => l.map safe_float)).getD []).any SF.isNull
      = false ∧
    (upliftFallback idSqrt df7 "treatment" "outcome").isSome = true ∧
    (estimate_causal_effect idSqrt df7 "treatment" "outcome" [] estEmptyCI).confidence_intervals
      ≠ estEmptyCI.conf_intervals.map (fun l => l.map safe_float) := by
  refine ⟨rfl, rfl, ?_, ?_⟩
  · rw [df7_fallback]; rfl
  · rw [estimate_ci_eq]
    have hcond : ((isFalsy (estEmptyCI.conf_intervals.map (fun l => l.map safe_float))
          || ((estEmptyCI.conf_intervals.map (fun l => l.map safe_float)).getD []).any
                SF.isNull)
        && (upliftFallback idSqrt df7 "treatment" "outcome").isSome) = true := by
      rw [df7_fallback]; rfl
    rw [if_pos hcond, df7_fallback]
    intro hc
    have := Option.some_injective _ hc
    exact List.noConfusion this

/-- C8 amended: the fallback replaces the delegated interval exactly
when the sanitized delegated interval is absent, or EMPTY, or contains
a null bound, and the uplift summary's interval is available (non-null
and non-empty, which is what Python's truthiness test checks);
otherwise the sanitized delegated interval is returned unchanged. -/
theorem claim_C8_amended_ci_fallback (sqrtF : ℚ → ℚ) (df : Dataset) (t o : String)
    (cs : List String) (est : DelegatedEstimate) :
    (((est.conf_intervals.map (fun l => l.map safe_float) = none ∨
       est.conf_intervals.map (fun l => l.map safe_float) = some [] ∨
       ((est.conf_intervals.map (fun l => l.map safe_float)).getD []).any SF.isNull = true) ∧
      (upliftFallback sqrtF df t o).isSome = true) →
      (estimate_causal_effect sqrtF df t o cs est).confidence_intervals
        = upliftFallback sqrtF df t o) ∧
    (¬ ((est.conf_intervals.map (fun l => l.map safe_float) = none ∨
         est.conf_intervals.map (fun l => l.map safe_float) = some [] ∨
         ((est.conf_intervals.map (fun l => l.map safe_float)).getD []).any SF.isNull = true) ∧
        (upliftFallback sqrtF df t o).isSome = true) →
      (estimate_causal_effect sqrtF df t o cs est).confidence_intervals
        = est.conf_intervals.map (fun l => l.map safe_float)) := by
  have hiff : ((isFalsy (est.conf_intervals.map (fun l => l.map safe_float))
        || ((est.conf_intervals.map (fun l => l.map safe_float)).getD []).any SF.isNull)
      && (upliftFallback sqrtF df t o).isSome) = true ↔
      ((est.conf_intervals.map (fun l => l.map safe_float) = none ∨
        est.conf_intervals.map (fun l => l.map safe_float) = some [] ∨
        ((est.conf_intervals.map (fun l => l.map safe_float)).getD []).any SF.isNull = true) ∧
       (upliftFallback sqrtF df t o).isSome = true) := by
    rw [Bool.and_eq_true, Bool.or_eq_true, isFalsy_true_iff]
    tauto
  constructor
  · intro hc
    rw [estimate_ci_eq, if_pos (hiff.mpr hc)]
  · intro hc
    rw [estimate_ci_eq, if_neg (fun hb => hc (hiff.mp hb))]

/-! ## Witnesses: the hypotheses of each claim hold at concrete inputs -/

theorem df7_se : (buildSummary idSqrt df7 "treatment" "outcome").standard_error
    = .val (.fin 26) := by
  rw [show (buildSummary idSqrt df7 "treatment" "outcome").standard_error
      = sfOF (rawSe idSqrt df7 "treatment" "outcome") from rfl, df7_rawSe idSqrt]
  rfl

theorem df7_cm : (buildSummary idSqrt df7 "treatment" "outcome").control_mean
    = .val (.fin 6) := by
  rw [show (buildSummary idSqrt df7 "treatment" "outcome").control_mean
      = sfF (Fmean (controlOutcomes df7 "treatment" "outcome")) from rfl,
    df7_control, Fmean_57, sfF_fin]

theorem df7_up : (buildSummary idSqrt df7 "treatment" "outcome").absolute_uplift
    = .val (.fin 9) := by
  rw [show (buildSummary idSqrt df7 "treatment" "outcome").absolute_uplift
      = sfF (fsub (Fmean (treatedOutcomes df7 "treatment" "outcome"))
          (Fmean (controlOutcomes df7 "treatment" "outcome"))) from rfl,
    df7_uplift, sfF_fin]

/-- The delegated estimate with no confidence interval at all. -/
def estNoCI : DelegatedEstimate :=
  { value := .pyFloat (.fin 2), conf_intervals := none, p_value := none, refutation := none }

theorem claim_C1_witness :
    FiniteOrNull (buildSummary idSqrt df7 "treatment" "outcome").treatment_mean ∧
    FiniteOrNull (buildSummary idSqrt df7 "treatment" "outcome").relative_uplift_pct ∧
    FiniteOrNull (buildSummary idSqrt df7 "treatment" "outcome").standard_error :=
  ⟨(claim_C1_summary_sanitized idSqrt df7 "treatment" "outcome" _ (df7_compute idSqrt)).1,
   (claim_C1_summary_sanitized idSqrt df7 "treatment" "outcome" _ (df7_compute idSqrt)).2.2.2.1,
   (claim_C1_summary_sanitized idSqrt df7 "treatment" "outcome" _ (df7_compute idSqrt)).2.2.2.2.1⟩

theorem claim_C3_witness :
    safe_float .pyNone = .null ∧
    safe_float (.npArr [.npFloat (.fin 7)]) = safe_float (.npFloat (.fin 7)) ∧
    safe_float (.npArr [.npFloat (.fin 1), .npFloat (.fin 2)])
      = .list ([.npFloat (.fin 1), .npFloat (.fin 2)].map safe_float) :=
  ⟨claim_C3_safe_float_rules.2.2.2.1 .pyNone (fun l h => PyVal.noConfusion h) rfl,
   claim_C3_safe_float_rules.2.2.2.2.1 (.npFloat (.fin 7)) rfl,
   claim_C3_safe_float_rules.2.2.2.2.2 [.npFloat (.fin 1), .npFloat (.fin 2)] (by decide)⟩

theorem claim_C4_witness :
    ∃ q, seRadicand df7 "treatment" "outcome" = .fin q ∧ 0 ≤ q ∧
      (buildSummary idSqrt df7 "treatment" "outcome").standard_error
        = .val (.fin (idSqrt q)) :=
  (claim_C4_standard_error idSqrt df7 "treatment" "outcome" _ (df7_compute idSqrt)).1
    ⟨by rw [df7_treated]; decide, by rw [df7_control]; decide, by rw [df7_radicand]; rfl⟩

theorem claim_C5_witness :
    ∃ u : ℚ, (buildSummary idSqrt df7 "treatment" "outcome").absolute_uplift
        = .val (.fin u) ∧
      (buildSummary idSqrt df7 "treatment" "outcome").approximate_confidence_interval
        = some [.val (.fin (u - 49/25 * 26)), .val (.fin (u + 49/25 * 26))] ∧
      u - 49/25 * 26 ≤ u ∧ u ≤ u + 49/25 * 26 :=
  (claim_C5_confidence_interval idSqrt df7 "treatment" "outcome" _ (df7_compute idSqrt)).1
    26 df7_se (by norm_num)

theorem claim_C6_witness :
    (buildSummary idSqrt df7 "treatment" "outcome").relative_uplift_pct
      = .val (.fin ((9 : ℚ) / 6 * 100)) :=
  (claim_C6_relative_uplift idSqrt df7 "treatment" "outcome" _ (df7_compute idSqrt)).1
    6 9 df7_cm (by norm_num) df7_up

theorem claim_C8_witness :
    (estimate_causal_effect idSqrt df7 "treatment" "outcome" [] estNoCI).confidence_intervals
      = upliftFallback idSqrt df7 "treatment" "outcome" :=
  (claim_C8_amended_ci_fallback idSqrt df7 "treatment" "outcome" [] estNoCI).1
    ⟨Or.inl rfl, by rw [df7_fallback]; rfl⟩

theorem claim_C9_witness :
    1 ≤ (buildSummary idSqrt df7 "treatment" "outcome").treatment_count ∧
    1 ≤ (buildSummary idSqrt df7 "treatment" "outcome").control_count ∧
    (buildSummary idSqrt df7 "treatment" "outcome").treatment_count
      + (buildSummary idSqrt df7 "treatment" "outcome").control_count
      = ((pairedData df7 "treatment" "outcome").length : ℤ) :=
  claim_C9_count_partition idSqrt df7 "treatment" "outcome" _ (df7_compute idSqrt)

end Manthan
